import Mathlib

/-!
Shallow embedding of the error-translation boundary of the csharp-driver
native binding (src/rust/src/error_conversion.rs and
src/rust/src/socket_options.rs), together with theorems settling the
frozen claims about the Classifier, the Constructor Registry and the
socket-option plumbing.

The observable behaviour of a translation call is which registry
constructor is invoked and with which arguments; the registry is
therefore embedded polymorphically in the handle type, and instantiated
with a free model (`callRegistry`, recording the one invocation) and a
trace model (`traceRegistry`, recording the list of invocations).
-/

namespace CsharpDriver

/-- Model of `std::io::ErrorKind`: the three kinds the session classifier
maps to "no host available", plus representative other kinds. -/
inductive IoErrorKind where
  | connectionRefused
  | timedOut
  | notConnected
  | permissionDenied
  | notFound
  | brokenPipe
  | addrInUse
  | other
deriving DecidableEq, Repr

/-- Model of `std::io::Error`: its kind together with its rendered text.
`message` stands for what the external `Display` implementation of
`std::io::Error` prints; `to_string` below returns it. -/
structure IoError where
  kind : IoErrorKind
  message : String
deriving DecidableEq, Repr

/-- `std::io::Error::to_string()`: the rendered text of the error
(the rendering itself lives in the standard library, outside this
repository; the model carries it as a field). -/
def IoError.to_string (e : IoError) : String := e.message

/-- Model of `std::time::Duration`: whole seconds and a nanosecond
remainder below one billion. -/
structure Duration where
  secs : Nat
  nanos : Nat
deriving DecidableEq, Repr

/-- `Duration::as_millis`: total whole milliseconds of the duration. -/
def Duration.as_millis (d : Duration) : Nat :=
  d.secs * 1000 + d.nanos / 1000000

/-- `Duration::from_millis`. -/
def Duration.from_millis (ms : Nat) : Duration :=
  ⟨ms / 1000, (ms % 1000) * 1000000⟩

/-- `Duration::from_secs`. -/
def Duration.from_secs (s : Nat) : Duration := ⟨s, 0⟩

/-- Rust's truncating cast `as i32` applied to an unsigned integer:
reduce modulo `2 ^ 32` and reinterpret as signed two's complement. -/
def as_i32 (n : Nat) : Int :=
  if n % 2 ^ 32 < 2 ^ 31 then ((n % 2 ^ 32 : Nat) : Int)
  else ((n % 2 ^ 32 : Nat) : Int) - 2 ^ 32

/-- Model of scylla's `DbError` (external driver crate): the variants the
Classifier matches on, with the fields the match extracts, plus
representative unmatched variants that fall to the generic arm. -/
inductive DbError where
  | AlreadyExists (keyspace table : String)
  | Invalid
  | SyntaxError
  | Unauthorized
  | FunctionFailure (keyspace function : String) (arg_types : List String)
  | TruncateError
  | Unprepared (statement_id : List Nat)
  | ConfigError
  | ServerError
  | Overloaded
  | IsBootstrapping
deriving DecidableEq, Repr

/-- Model of scylla's `RequestAttemptError` (external driver crate):
the `DbError` variant carries the database error and its message string. -/
inductive RequestAttemptError where
  | DbError (error : DbError) (message : String)
  | BrokenConnectionError (details : String)
  | UnableToAllocStreamId
deriving DecidableEq, Repr

/-- Model of scylla's `RequestError` (external driver crate). -/
inductive RequestError where
  | LastAttemptError (error : RequestAttemptError)
  | RequestTimeout (duration : Duration)
  | EmptyPlan
  | ConnectionPoolError (details : String)
deriving DecidableEq, Repr

/-- Model of scylla's `NextPageError` (external driver crate). -/
inductive NextPageError where
  | RequestFailure (error : RequestError)
  | ProtocolError (details : String)
deriving DecidableEq, Repr

/-- Model of scylla's `PagerExecutionError` (external driver crate). -/
inductive PagerExecutionError where
  | NextPageError (error : NextPageError)
  | SerializationError (details : String)
deriving DecidableEq, Repr

/-- Model of scylla's `PrepareError` (external driver crate); the
Classifier matches none of its variants. -/
inductive PrepareError where
  | ConnectionPoolError (details : String)
  | AllAttemptsFailed (details : String)
  | PreparedStatementIdMismatch
deriving DecidableEq, Repr

/-- Model of scylla's `ConnectionError` (external driver crate). -/
inductive ConnectionError where
  | IoError (error : IoError)
  | ConnectTimeout
  | BrokenConnection (details : String)
deriving DecidableEq, Repr

/-- Model of scylla's `ConnectionPoolError` (external driver crate). -/
inductive ConnectionPoolError where
  | Broken (last_connection_error : ConnectionError)
  | Initializing
  | NodeDisabledByHostFilter
deriving DecidableEq, Repr

/-- Model of scylla's `MetadataError` (external driver crate). -/
inductive MetadataError where
  | ConnectionPoolError (error : ConnectionPoolError)
  | FetchError (details : String)
deriving DecidableEq, Repr

/-- Model of scylla's `NewSessionError` (external driver crate). -/
inductive NewSessionError where
  | MetadataError (error : MetadataError)
  | FailedToResolveAnyHostname (hostnames : List String)
  | EmptyKnownNodesList
deriving DecidableEq, Repr

/-- Rendering of `DbError` for the generic fallback message. The `Display`
implementations live in the external driver crate, outside this
repository; the claims constrain only the "Rust exception: " marker in
front of the rendered text, so any fixed compositional rendering
serves. -/
def DbError.render : DbError → String
  | .AlreadyExists keyspace table =>
      "keyspace " ++ keyspace ++ " table " ++ table ++ " already exists"
  | .Invalid => "invalid query"
  | .SyntaxError => "cql grammar violation"
  | .Unauthorized => "not authorized"
  | .FunctionFailure keyspace function _ =>
      "failure of " ++ keyspace ++ "." ++ function
  | .TruncateError => "truncate failed"
  | .Unprepared _ => "statement not prepared"
  | .ConfigError => "configuration error"
  | .ServerError => "server error"
  | .Overloaded => "overloaded"
  | .IsBootstrapping => "bootstrapping"

/-- Rendering of `RequestAttemptError` (external `Display`, see
`DbError.render`). -/
def RequestAttemptError.render : RequestAttemptError → String
  | .DbError error message => "database error: " ++ error.render ++ ": " ++ message
  | .BrokenConnectionError details => "broken connection: " ++ details
  | .UnableToAllocStreamId => "unable to allocate a stream id"

/-- Rendering of `RequestError` (external `Display`, see `DbError.render`). -/
def RequestError.render : RequestError → String
  | .LastAttemptError error => "last attempt: " ++ error.render
  | .RequestTimeout duration =>
      "request timed out after " ++ toString duration.as_millis ++ " ms"
  | .EmptyPlan => "empty query plan"
  | .ConnectionPoolError details => "connection pool error: " ++ details

/-- Rendering of `NextPageError` (external `Display`, see `DbError.render`). -/
def NextPageError.render : NextPageError → String
  | .RequestFailure error => "request failure: " ++ error.render
  | .ProtocolError details => "protocol error: " ++ details

/-- Rendering of `PagerExecutionError` (external `Display`, see
`DbError.render`). -/
def PagerExecutionError.render : PagerExecutionError → String
  | .NextPageError error => "next page error: " ++ error.render
  | .SerializationError details => "serialization error: " ++ details

/-- Rendering of `PrepareError` (external `Display`, see `DbError.render`). -/
def PrepareError.render : PrepareError → String
  | .ConnectionPoolError details => "connection pool error: " ++ details
  | .AllAttemptsFailed details => "all attempts failed: " ++ details
  | .PreparedStatementIdMismatch => "prepared statement id mismatch"

/-- Rendering of `ConnectionError` (external `Display`, see
`DbError.render`). -/
def ConnectionError.render : ConnectionError → String
  | .IoError error => "io error: " ++ error.message
  | .ConnectTimeout => "connect timeout"
  | .BrokenConnection details => "broken connection: " ++ details

/-- Rendering of `ConnectionPoolError` (external `Display`, see
`DbError.render`). -/
def ConnectionPoolError.render : ConnectionPoolError → String
  | .Broken last_connection_error =>
      "pool broken; last connection error: " ++ last_connection_error.render
  | .Initializing => "pool initializing"
  | .NodeDisabledByHostFilter => "node disabled by host filter"

/-- Rendering of `MetadataError` (external `Display`, see `DbError.render`). -/
def MetadataError.render : MetadataError → String
  | .ConnectionPoolError error => "connection pool error: " ++ error.render
  | .FetchError details => "fetch error: " ++ details

/-- Rendering of `NewSessionError` (external `Display`, see
`DbError.render`). -/
def NewSessionError.render : NewSessionError → String
  | .MetadataError error => "metadata error: " ++ error.render
  | .FailedToResolveAnyHostname hostnames =>
      "failed to resolve any hostname of " ++ toString hostnames.length
  | .EmptyKnownNodesList => "empty known nodes list"

/-- One invocation of a registry constructor, recording which entry was
called and the plain-data arguments packaged across the boundary.
One variant per entry of the Constructor Registry. -/
inductive ConstructorCall where
  | rustException (message : String)
  | functionFailure (message : String)
  | invalidConfigurationInQuery (message : String)
  | noHostAvailable (message : String)
  | operationTimedOut (address : String) (timeout_ms : Int)
  | preparedQueryNotFound (message : String) (unknown_id : List Nat)
  | requestInvalid (message : String)
  | syntaxError (message : String)
  | traceRejected (message : String)
  | truncateError (message : String)
  | unauthorized (message : String)
  | alreadyExists (keyspace table : String)
  | invalidQuery (message : String)
deriving DecidableEq, Repr

/-- Modelled from the spec: the Constructor Registry (`ExceptionConstructors`
lives in the crate's task module, which is not among the repository files
given; its field set follows the spec's kind table in §4.3 and the fields
`error_conversion.rs` reads). Each field is one constructor, wrapping a
host function pointer; the handle type `H` is abstract because the core
never inspects handles. -/
structure ExceptionConstructors (H : Type) where
  rust_exception_constructor : String → H
  function_failure_exception_constructor : String → H
  invalid_configuration_in_query_constructor : String → H
  no_host_available_exception_constructor : String → H
  operation_timed_out_exception_constructor : String → Int → H
  prepared_query_not_found_exception_constructor : String → List Nat → H
  request_invalid_exception_constructor : String → H
  syntax_error_exception_constructor : String → H
  trace_rejected_exception_constructor : String → H
  truncate_exception_constructor : String → H
  unauthorized_exception_constructor : String → H
  already_exists_constructor : String → String → H
  invalid_query_constructor : String → H

/-- `RustExceptionConstructor::construct_from_rust`: prefixes the rendered
error with "Rust exception: " and invokes the generic fallback entry. -/
def ExceptionConstructors.rust_construct_from_rust {H : Type}
    (ctors : ExceptionConstructors H) (rendered : String) : H :=
  ctors.rust_exception_constructor ("Rust exception: " ++ rendered)

/-- `impl ErrorToException for PagerExecutionError`: the Classifier's
structural match, arm for arm as in `error_conversion.rs` lines 227-310. -/
def PagerExecutionError.to_exception {H : Type} (self : PagerExecutionError)
    (ctors : ExceptionConstructors H) : H :=
  match self with
  | .NextPageError (.RequestFailure (.LastAttemptError
      (.DbError (.AlreadyExists keyspace table) _))) =>
      ctors.already_exists_constructor keyspace table
  | .NextPageError (.RequestFailure (.LastAttemptError
      (.DbError .Invalid message))) =>
      ctors.invalid_query_constructor message
  | .NextPageError (.RequestFailure (.LastAttemptError
      (.DbError .SyntaxError message))) =>
      ctors.syntax_error_exception_constructor message
  | .NextPageError (.RequestFailure (.LastAttemptError
      (.DbError .Unauthorized message))) =>
      ctors.unauthorized_exception_constructor message
  | .NextPageError (.RequestFailure (.LastAttemptError
      (.DbError (.FunctionFailure _ _ _) message))) =>
      ctors.function_failure_exception_constructor message
  | .NextPageError (.RequestFailure (.LastAttemptError
      (.DbError .TruncateError message))) =>
      ctors.truncate_exception_constructor message
  | .NextPageError (.RequestFailure (.LastAttemptError
      (.DbError (.Unprepared statement_id) message))) =>
      ctors.prepared_query_not_found_exception_constructor message statement_id
  | .NextPageError (.RequestFailure (.LastAttemptError
      (.DbError .ConfigError message))) =>
      ctors.invalid_configuration_in_query_constructor message
  | .NextPageError (.RequestFailure (.RequestTimeout duration)) =>
      ctors.operation_timed_out_exception_constructor "0.0.0.0:0"
        (as_i32 duration.as_millis)
  | _ => ctors.rust_construct_from_rust self.render

/-- `impl ErrorToException for PrepareError`: always the generic fallback
(`error_conversion.rs` lines 313-317). -/
def PrepareError.to_exception {H : Type} (self : PrepareError)
    (ctors : ExceptionConstructors H) : H :=
  ctors.rust_construct_from_rust self.render

/-- Whether an I/O error kind is classified as "no host available"
(the three-kind set tested in `error_conversion.rs` lines 328-331). -/
def IoErrorKind.no_host (k : IoErrorKind) : Bool :=
  match k with
  | .connectionRefused => true
  | .timedOut => true
  | .notConnected => true
  | _ => false

/-- `impl ErrorToException for NewSessionError`: the session-establishment
match of `error_conversion.rs` lines 320-340. -/
def NewSessionError.to_exception {H : Type} (self : NewSessionError)
    (ctors : ExceptionConstructors H) : H :=
  match self with
  | .MetadataError (.ConnectionPoolError (.Broken (.IoError io_err))) =>
      if io_err.kind.no_host then
        ctors.no_host_available_exception_constructor io_err.to_string
      else
        ctors.rust_construct_from_rust self.render
  | _ => ctors.rust_construct_from_rust self.render

/-- The free model of the registry: every constructor returns the record of
its own invocation, so the result of a translation call is exactly the
one constructor invocation it performed. -/
def callRegistry : ExceptionConstructors ConstructorCall where
  rust_exception_constructor := ConstructorCall.rustException
  function_failure_exception_constructor := ConstructorCall.functionFailure
  invalid_configuration_in_query_constructor := ConstructorCall.invalidConfigurationInQuery
  no_host_available_exception_constructor := ConstructorCall.noHostAvailable
  operation_timed_out_exception_constructor := ConstructorCall.operationTimedOut
  prepared_query_not_found_exception_constructor := ConstructorCall.preparedQueryNotFound
  request_invalid_exception_constructor := ConstructorCall.requestInvalid
  syntax_error_exception_constructor := ConstructorCall.syntaxError
  trace_rejected_exception_constructor := ConstructorCall.traceRejected
  truncate_exception_constructor := ConstructorCall.truncateError
  unauthorized_exception_constructor := ConstructorCall.unauthorized
  already_exists_constructor := ConstructorCall.alreadyExists
  invalid_query_constructor := ConstructorCall.invalidQuery

/-- The trace model of the registry: every constructor returns the
singleton list of its invocation, so the result of a translation call is
the list of the constructor invocations it performed, in order. -/
def traceRegistry : ExceptionConstructors (List ConstructorCall) where
  rust_exception_constructor := fun m => [ConstructorCall.rustException m]
  function_failure_exception_constructor := fun m => [ConstructorCall.functionFailure m]
  invalid_configuration_in_query_constructor := fun m => [ConstructorCall.invalidConfigurationInQuery m]
  no_host_available_exception_constructor := fun m => [ConstructorCall.noHostAvailable m]
  operation_timed_out_exception_constructor := fun a t => [ConstructorCall.operationTimedOut a t]
  prepared_query_not_found_exception_constructor := fun m i => [ConstructorCall.preparedQueryNotFound m i]
  request_invalid_exception_constructor := fun m => [ConstructorCall.requestInvalid m]
  syntax_error_exception_constructor := fun m => [ConstructorCall.syntaxError m]
  trace_rejected_exception_constructor := fun m => [ConstructorCall.traceRejected m]
  truncate_exception_constructor := fun m => [ConstructorCall.truncateError m]
  unauthorized_exception_constructor := fun m => [ConstructorCall.unauthorized m]
  already_exists_constructor := fun k t => [ConstructorCall.alreadyExists k t]
  invalid_query_constructor := fun m => [ConstructorCall.invalidQuery m]

/-- The registry entry a recorded invocation came from, with the argument
data forgotten. -/
inductive CtorKind where
  | rustException
  | functionFailure
  | invalidConfigurationInQuery
  | noHostAvailable
  | operationTimedOut
  | preparedQueryNotFound
  | requestInvalid
  | syntaxError
  | traceRejected
  | truncateError
  | unauthorized
  | alreadyExists
  | invalidQuery
deriving DecidableEq, Repr

/-- The kind of the registry entry a `ConstructorCall` records. -/
def ConstructorCall.kind : ConstructorCall → CtorKind
  | .rustException _ => .rustException
  | .functionFailure _ => .functionFailure
  | .invalidConfigurationInQuery _ => .invalidConfigurationInQuery
  | .noHostAvailable _ => .noHostAvailable
  | .operationTimedOut _ _ => .operationTimedOut
  | .preparedQueryNotFound _ _ => .preparedQueryNotFound
  | .requestInvalid _ => .requestInvalid
  | .syntaxError _ => .syntaxError
  | .traceRejected _ => .traceRejected
  | .truncateError _ => .truncateError
  | .unauthorized _ => .unauthorized
  | .alreadyExists _ _ => .alreadyExists
  | .invalidQuery _ => .invalidQuery

/-- Whether a recorded invocation used one of the two reserved registry
entries (request-invalid, trace-rejected). -/
def ConstructorCall.reserved : ConstructorCall → Bool
  | .requestInvalid _ => true
  | .traceRejected _ => true
  | _ => false

/-- The spec's leaf table for the pager Classifier (specificity
precedence, §4.3-4.4): which registry entry each specific leaf pattern
selects, and the generic fallback for every other shape. Written from the
spec's words, to be compared with `PagerExecutionError.to_exception`. -/
def specPagerKind : PagerExecutionError → CtorKind
  | .NextPageError (.RequestFailure (.LastAttemptError
      (.DbError (.AlreadyExists _ _) _))) => .alreadyExists
  | .NextPageError (.RequestFailure (.LastAttemptError
      (.DbError .Invalid _))) => .invalidQuery
  | .NextPageError (.RequestFailure (.LastAttemptError
      (.DbError .SyntaxError _))) => .syntaxError
  | .NextPageError (.RequestFailure (.LastAttemptError
      (.DbError .Unauthorized _))) => .unauthorized
  | .NextPageError (.RequestFailure (.LastAttemptError
      (.DbError (.FunctionFailure _ _ _) _))) => .functionFailure
  | .NextPageError (.RequestFailure (.LastAttemptError
      (.DbError .TruncateError _))) => .truncateError
  | .NextPageError (.RequestFailure (.LastAttemptError
      (.DbError (.Unprepared _) _))) => .preparedQueryNotFound
  | .NextPageError (.RequestFailure (.LastAttemptError
      (.DbError .ConfigError _))) => .invalidConfigurationInQuery
  | .NextPageError (.RequestFailure (.RequestTimeout _)) => .operationTimedOut
  | _ => .rustException

/-- The spec's classification of session-establishment failures
(I/O-classification boundary, §4.4): a broken connection pool whose last
error was an I/O failure of kind refused, timed-out or not-connected maps
to "no host available" with the I/O error's rendered message; every other
I/O kind and every other shape maps to the generic fallback. Written from
the spec's words, to be compared with `NewSessionError.to_exception`. -/
def specSessionCall : NewSessionError → ConstructorCall
  | e@(.MetadataError (.ConnectionPoolError (.Broken (.IoError io_err)))) =>
      if io_err.kind.no_host then
        ConstructorCall.noHostAvailable io_err.to_string
      else
        ConstructorCall.rustException ("Rust exception: " ++ e.render)
  | e => ConstructorCall.rustException ("Rust exception: " ++ e.render)

/-- Model of scylla's `SessionBuilder` (external driver crate): the
configuration fields the socket options touch. `none` means the builder's
own default is left in place. -/
structure SessionBuilder where
  connection_timeout_config : Option Duration
  tcp_nodelay_config : Option Bool
  tcp_keepalive_interval_config : Option Duration
deriving DecidableEq, Repr

/-- `SessionBuilder::connection_timeout` (external builder method):
records the connection timeout. -/
def SessionBuilder.connection_timeout (b : SessionBuilder) (d : Duration) :
    SessionBuilder :=
  { b with connection_timeout_config := some d }

/-- `SessionBuilder::tcp_nodelay` (external builder method): records the
TCP_NODELAY flag. -/
def SessionBuilder.tcp_nodelay (b : SessionBuilder) (v : Bool) :
    SessionBuilder :=
  { b with tcp_nodelay_config := some v }

/-- `SessionBuilder::tcp_keepalive_interval` (external builder method):
records the TCP keepalive interval. -/
def SessionBuilder.tcp_keepalive_interval (b : SessionBuilder) (d : Duration) :
    SessionBuilder :=
  { b with tcp_keepalive_interval_config := some d }

/-- `SocketOptions` (socket_options.rs lines 14-27): primitive socket
options passed by value from C#. `connect_timeout_millis` is an `i32` and
`tcp_keepalive_interval_millis` an `i64`; both are modelled as `Int`, and
the code only tests them for positivity before casting to `u64`. -/
structure SocketOptions where
  connect_timeout_millis : Int
  tcp_nodelay : Bool
  keepalive : Bool
  tcp_keepalive_interval_millis : Int
deriving DecidableEq, Repr

/-- `SocketOptions::DEFAULT_TCP_KEEPALIVE_INTERVAL`: 42 seconds
(socket_options.rs line 31). -/
def SocketOptions.DEFAULT_TCP_KEEPALIVE_INTERVAL : Duration :=
  Duration.from_secs 42

/-- `SocketOptions::apply_to_session_builder` (socket_options.rs lines
33-51), statement for statement: the positive-`i32`-to-`u64` cast on a
positive value is `Int.toNat`. -/
def SocketOptions.apply_to_session_builder (self : SocketOptions)
    (builder : SessionBuilder) : SessionBuilder :=
  let builder :=
    if self.connect_timeout_millis > 0 then
      builder.connection_timeout
        (Duration.from_millis self.connect_timeout_millis.toNat)
    else builder
  let builder := builder.tcp_nodelay self.tcp_nodelay
  let builder :=
    if self.keepalive then
      let interval :=
        if self.tcp_keepalive_interval_millis > 0 then
          Duration.from_millis self.tcp_keepalive_interval_millis.toNat
        else SocketOptions.DEFAULT_TCP_KEEPALIVE_INTERVAL
      builder.tcp_keepalive_interval interval
    else builder
  builder

/-- C1: for every `PagerExecutionError` and every `NewSessionError`,
`to_exception` is total and produces exactly one handle by invoking
exactly one constructor from the registry: under the trace registry the
call trace is the singleton list of the handle produced under the free
registry. -/
theorem to_exception_single_invocation :
    (∀ e : PagerExecutionError,
      e.to_exception traceRegistry = [e.to_exception callRegistry]) ∧
    (∀ e : NewSessionError,
      e.to_exception traceRegistry = [e.to_exception callRegistry]) := by
  constructor
  · intro e
    cases e with
    | SerializationError details => rfl
    | NextPageError n =>
      cases n with
      | ProtocolError details => rfl
      | RequestFailure r =>
        cases r with
        | EmptyPlan => rfl
        | ConnectionPoolError details => rfl
        | RequestTimeout d => rfl
        | LastAttemptError a =>
          cases a with
          | BrokenConnectionError details => rfl
          | UnableToAllocStreamId => rfl
          | DbError d m => cases d <;> rfl
  · intro e
    cases e with
    | EmptyKnownNodesList => rfl
    | FailedToResolveAnyHostname hostnames => rfl
    | MetadataError m =>
      cases m with
      | FetchError details => rfl
      | ConnectionPoolError p =>
        cases p with
        | Initializing => rfl
        | NodeDisabledByHostFilter => rfl
        | Broken c =>
          cases c with
          | ConnectTimeout => rfl
          | BrokenConnection details => rfl
          | IoError io =>
            cases io with
            | mk kind message => cases kind <;> rfl

/-- C2: the pager Classifier realizes the spec's leaf table: every error
matching a specific leaf pattern is translated by that leaf's specific
constructor (never the generic fallback), and every error matching no
leaf pattern is translated by the generic fallback with the
"Rust exception: "-marked rendering of the error. -/
theorem pager_specificity_precedence (e : PagerExecutionError) :
    (e.to_exception callRegistry).kind = specPagerKind e ∧
    (specPagerKind e = CtorKind.rustException →
      e.to_exception callRegistry =
        ConstructorCall.rustException ("Rust exception: " ++ e.render)) := by
  cases e with
  | SerializationError details => exact ⟨rfl, fun _ => rfl⟩
  | NextPageError n =>
    cases n with
    | ProtocolError details => exact ⟨rfl, fun _ => rfl⟩
    | RequestFailure r =>
      cases r with
      | EmptyPlan => exact ⟨rfl, fun _ => rfl⟩
      | ConnectionPoolError details => exact ⟨rfl, fun _ => rfl⟩
      | RequestTimeout d => exact ⟨rfl, fun h => CtorKind.noConfusion h⟩
      | LastAttemptError a =>
        cases a with
        | BrokenConnectionError details => exact ⟨rfl, fun _ => rfl⟩
        | UnableToAllocStreamId => exact ⟨rfl, fun _ => rfl⟩
        | DbError d m =>
          cases d <;> first
            | exact ⟨rfl, fun h => CtorKind.noConfusion h⟩
            | exact ⟨rfl, fun _ => rfl⟩

/-- C2 witness: an error matching no leaf pattern is translated by the
generic fallback with the marked rendering. -/
theorem pager_specificity_precedence_witness :
    (PagerExecutionError.SerializationError "boom").to_exception callRegistry =
      ConstructorCall.rustException ("Rust exception: " ++
        (PagerExecutionError.SerializationError "boom").render) :=
  (pager_specificity_precedence (PagerExecutionError.SerializationError "boom")).2 rfl

/-- C3: an already-exists database error carrying any keyspace and table
strings (in particular "ks1" and "t1") is translated by the
already-exists constructor applied to exactly those two strings, keyspace
first and table second. -/
theorem already_exists_field_fidelity :
    (∀ (keyspace table message : String),
      (PagerExecutionError.NextPageError (.RequestFailure (.LastAttemptError
        (.DbError (.AlreadyExists keyspace table) message)))).to_exception
          callRegistry =
      ConstructorCall.alreadyExists keyspace table) ∧
    (PagerExecutionError.NextPageError (.RequestFailure (.LastAttemptError
      (.DbError (.AlreadyExists "ks1" "t1") "exists")))).to_exception
        callRegistry =
    ConstructorCall.alreadyExists "ks1" "t1" :=
  ⟨fun _ _ _ => rfl, rfl⟩

/-- C4: an unprepared-statement database error carrying any raw
statement-id bytes (in particular [0x01, 0x02, 0xFF]) is translated by
the prepared-query-not-found constructor applied to the error's message
and exactly those bytes, in order. -/
theorem unprepared_statement_id_round_trip :
    (∀ (message : String) (statement_id : List Nat),
      (PagerExecutionError.NextPageError (.RequestFailure (.LastAttemptError
        (.DbError (.Unprepared statement_id) message)))).to_exception
          callRegistry =
      ConstructorCall.preparedQueryNotFound message statement_id) ∧
    (PagerExecutionError.NextPageError (.RequestFailure (.LastAttemptError
      (.DbError (.Unprepared [0x01, 0x02, 0xFF]) "unprepared")))).to_exception
        callRegistry =
    ConstructorCall.preparedQueryNotFound "unprepared" [0x01, 0x02, 0xFF] :=
  ⟨fun _ _ => rfl, rfl⟩

/-- C5: a request-timeout whose duration totals 1500 milliseconds is
translated by the operation-timed-out constructor with millisecond
argument 1500 and the fixed placeholder address "0.0.0.0:0". -/
theorem request_timeout_1500ms (d : Duration) (h : d.as_millis = 1500) :
    (PagerExecutionError.NextPageError (.RequestFailure
      (.RequestTimeout d))).to_exception callRegistry =
    ConstructorCall.operationTimedOut "0.0.0.0:0" 1500 := by
  show ConstructorCall.operationTimedOut "0.0.0.0:0" (as_i32 d.as_millis) = _
  rw [h]
  rfl

/-- C5 witness: the duration of 1 second and 500000000 nanoseconds totals
1500 milliseconds and is translated with millisecond argument 1500. -/
theorem request_timeout_1500ms_witness :
    (PagerExecutionError.NextPageError (.RequestFailure
      (.RequestTimeout ⟨1, 500000000⟩))).to_exception callRegistry =
    ConstructorCall.operationTimedOut "0.0.0.0:0" 1500 :=
  request_timeout_1500ms ⟨1, 500000000⟩ rfl

/-- C6: session-establishment failures are classified exactly as the spec
says: a broken connection pool wrapping an I/O error of kind
connection-refused, timed-out or not-connected maps to the
no-host-available constructor with the I/O error's rendered message, and
every other I/O kind and every other shape maps to the generic
fallback. -/
theorem session_classification_boundary (e : NewSessionError) :
    e.to_exception callRegistry = specSessionCall e := by
  cases e with
  | EmptyKnownNodesList => rfl
  | FailedToResolveAnyHostname hostnames => rfl
  | MetadataError m =>
    cases m with
    | FetchError details => rfl
    | ConnectionPoolError p =>
      cases p with
      | Initializing => rfl
      | NodeDisabledByHostFilter => rfl
      | Broken c =>
        cases c with
        | ConnectTimeout => rfl
        | BrokenConnection details => rfl
        | IoError io =>
          cases io with
          | mk kind message => cases kind <;> rfl

/-- C7: no translation path of any of the three implementing error types
ever invokes the reserved request-invalid or trace-rejected registry
entries. -/
theorem reserved_constructors_unreachable :
    (∀ e : PagerExecutionError,
      (e.to_exception callRegistry).reserved = false) ∧
    (∀ e : PrepareError,
      (e.to_exception callRegistry).reserved = false) ∧
    (∀ e : NewSessionError,
      (e.to_exception callRegistry).reserved = false) := by
  refine ⟨?_, ?_, ?_⟩
  · intro e
    cases e with
    | SerializationError details => rfl
    | NextPageError n =>
      cases n with
      | ProtocolError details => rfl
      | RequestFailure r =>
        cases r with
        | EmptyPlan => rfl
        | ConnectionPoolError details => rfl
        | RequestTimeout d => rfl
        | LastAttemptError a =>
          cases a with
          | BrokenConnectionError details => rfl
          | UnableToAllocStreamId => rfl
          | DbError d m => cases d <;> rfl
  · intro e
    cases e <;> rfl
  · intro e
    cases e with
    | EmptyKnownNodesList => rfl
    | FailedToResolveAnyHostname hostnames => rfl
    | MetadataError m =>
      cases m with
      | FetchError details => rfl
      | ConnectionPoolError p =>
        cases p with
        | Initializing => rfl
        | NodeDisabledByHostFilter => rfl
        | Broken c =>
          cases c with
          | ConnectTimeout => rfl
          | BrokenConnection details => rfl
          | IoError io =>
            cases io with
            | mk kind message => cases kind <;> rfl

/-- C8: every `PrepareError`, regardless of variant, is translated by the
generic fallback constructor with the "Rust exception: "-marked rendering
of the error, never by a specific constructor. -/
theorem prepare_error_always_generic (e : PrepareError) :
    e.to_exception callRegistry =
      ConstructorCall.rustException ("Rust exception: " ++ e.render) := rfl

/-- C9: applying socket options to a builder sets the TCP keepalive
interval exactly when the keepalive flag is true — to the given interval
when positive and to the fixed 42-second default otherwise — and sets the
connection timeout exactly when `connect_timeout_millis` is positive,
leaving the builder's value in place in every other case. -/
theorem socket_options_application (opts : SocketOptions) (b : SessionBuilder) :
    ((opts.apply_to_session_builder b).tcp_keepalive_interval_config =
      if opts.keepalive then
        some (if opts.tcp_keepalive_interval_millis > 0 then
            Duration.from_millis opts.tcp_keepalive_interval_millis.toNat
          else SocketOptions.DEFAULT_TCP_KEEPALIVE_INTERVAL)
      else b.tcp_keepalive_interval_config) ∧
    ((opts.apply_to_session_builder b).connection_timeout_config =
      if opts.connect_timeout_millis > 0 then
        some (Duration.from_millis opts.connect_timeout_millis.toNat)
      else b.connection_timeout_config) := by
  unfold SocketOptions.apply_to_session_builder
  simp only [SessionBuilder.connection_timeout, SessionBuilder.tcp_nodelay,
    SessionBuilder.tcp_keepalive_interval]
  constructor <;> split <;> split <;> rfl

/-- C10: the millisecond argument of every request-timeout translation is
the duration's total milliseconds under the truncating `as i32` cast:
congruent to the exact count modulo 2^32, within the signed 32-bit range,
and equal to the exact count precisely for durations of at most
2^31 - 1 milliseconds. -/
theorem timeout_millis_truncating_cast :
    (∀ d : Duration,
      (PagerExecutionError.NextPageError (.RequestFailure
        (.RequestTimeout d))).to_exception callRegistry =
      ConstructorCall.operationTimedOut "0.0.0.0:0" (as_i32 d.as_millis)) ∧
    (∀ n : Nat,
      as_i32 n % 2 ^ 32 = (n : Int) % 2 ^ 32 ∧
      -(2 ^ 31) ≤ as_i32 n ∧ as_i32 n < 2 ^ 31) ∧
    (∀ n : Nat, as_i32 n = (n : Int) ↔ n ≤ 2 ^ 31 - 1) := by
  refine ⟨fun d => rfl, fun n => ?_, fun n => ?_⟩ <;>
  · unfold as_i32
    have h32 : (2 : Nat) ^ 32 = 4294967296 := by norm_num
    have h31 : (2 : Nat) ^ 31 = 2147483648 := by norm_num
    have hi32 : (2 : Int) ^ 32 = 4294967296 := by norm_num
    have hi31 : (2 : Int) ^ 31 = 2147483648 := by norm_num
    simp only [h32, h31, hi32, hi31]
    split <;> omega

end CsharpDriver
